import Mathlib

/-!
Verification of the pmlb client library (`pmlb/pmlb.py`): a shallow
embedding of its fetch/cache/filter/diff logic, with theorems checking the
specification's claims.

Modelling conventions:
* A pandas `DataFrame` is a header (column names) plus rows of optional
  cells; `none` is a missing value (NaN).
* The tabular parse/serialize capability is treated as the identity on
  this model: a cached file stores the `DataFrame` value that `to_csv`
  wrote, and `read_csv` on that path returns it.  This follows the spec,
  which treats parsing/serialization as an external capability.
* The network is an environment: `status` gives the HTTP status code
  `requests.get` observes for a URL, and `remote` gives the table that
  `pd.read_csv(url, ...)` parses from it.  Network accesses are recorded
  as a trace of `NetEvent`s.
* The catalog lists (`dataset_lists.py`) are bundled static data external
  to this module; they are carried in the environment, since no claim
  depends on their concrete contents.
* Python exceptions become an explicit `PyError` result.
-/

namespace Pmlb

/-- A Python exception, as far as this module can raise one. -/
inductive PyError where
  | valueError (msg : String)
  | keyError (key : String)
  | nameError (nm : String)
deriving DecidableEq, Repr

/-- The only domain error: `ValueError('Dataset not found in PMLB.')`. -/
def unknownDataset : PyError := .valueError "Dataset not found in PMLB."

/-- A tabular dataset: named columns and rows of optional cells
(`none` models a missing value / NaN). -/
structure DataFrame where
  header : List String
  rows : List (List (Option Int))
deriving DecidableEq, Repr

/-- `dataset.dropna(inplace=True)`: keep only the rows in which every cell
is present. -/
def DataFrame.dropna (d : DataFrame) : DataFrame :=
  { d with rows := d.rows.filter (fun r => r.all (fun c => c.isSome)) }

/-- `dataset.drop(c, axis=1)`: remove every column named `c`; raises
`KeyError` when no such column exists. -/
def DataFrame.dropColumn (d : DataFrame) (c : String) : Except PyError DataFrame :=
  if c ∈ d.header then
    .ok { header := d.header.filter (fun h => h ≠ c),
          rows := d.rows.map (fun r =>
            ((d.header.zip r).filter (fun p => p.1 ≠ c)).map (fun p => p.2)) }
  else .error (.keyError c)

/-- `dataset[c]`: the column named `c` as a vector of cells; raises
`KeyError` when absent.  (`read_csv` never yields duplicate column names,
so taking the first index is exact.) -/
def DataFrame.column (d : DataFrame) (c : String) : Except PyError (List (Option Int)) :=
  match d.header.findIdx? (fun h => h == c) with
  | some i => .ok (d.rows.map (fun r => r.getD i none))
  | none => .error (.keyError c)

/-- One recorded network access: a `requests.get`, or a `pd.read_csv`
pointed at a URL. -/
inductive NetEvent where
  | get (url : String)
  | read (url : String)
deriving DecidableEq, Repr

/-- The local filesystem: cached files (newest binding first) and the set
of directories that exist. -/
structure FS where
  files : List (String × DataFrame)
  dirs : List String
deriving DecidableEq, Repr

/-- The environment the module runs against: the two bundled catalog
lists from `dataset_lists.py`, and the remote side (HTTP status per URL,
and the table parsed from each URL). -/
structure Env where
  classification : List String
  regression : List String
  status : String → Nat
  remote : String → DataFrame

/-- `dataset_names = classification_dataset_names + regression_dataset_names`. -/
def dataset_names (env : Env) : List String :=
  env.classification ++ env.regression

def GITHUB_URL : String :=
  "https://github.com/EpistasisLab/penn-ml-benchmarks/raw/master/datasets"

def suffix : String := ".tsv.gz"

/-- The URL format string of `get_dataset_url`. -/
def dataset_url_of (base nm sfx : String) : String :=
  base ++ "/" ++ nm ++ "/" ++ nm ++ sfx

/-- `get_dataset_url`: build the URL, issue a `requests.get`, and raise
the unknown-dataset `ValueError` when the status code is not 200. -/
def get_dataset_url (env : Env) (base nm sfx : String) :
    Except PyError String × List NetEvent :=
  let u := dataset_url_of base nm sfx
  (if env.status u = 200 then .ok u else .error unknownDataset, [.get u])

/-- `os.path.join(local_cache_dir, dataset_name, dataset_name+suffix)`. -/
def cache_path (root nm : String) : String :=
  root ++ "/" ++ nm ++ "/" ++ nm ++ suffix

/-- `os.path.split(dataset_path)[0]`, the cache directory for a dataset. -/
def cache_dir (root nm : String) : String :=
  root ++ "/" ++ nm

/-- What `fetch_data` returns on success: the unified `DataFrame`, or the
`(X, y)` pair of `.values` arrays when `return_X_y` is set. -/
inductive FetchRes where
  | df (d : DataFrame)
  | X_y (X : List (List (Option Int))) (y : List (Option Int))
deriving DecidableEq, Repr

deriving instance DecidableEq for Except

/-- The full outcome of one `fetch_data` call: its result or exception,
the filesystem afterwards, and the trace of network accesses. -/
structure FetchOut where
  result : Except PyError FetchRes
  fs : FS
  net : List NetEvent
deriving DecidableEq, Repr

/-- The tail of `fetch_data`: optional `dropna`, then either the unified
frame or the `(X, y)` split. -/
def postprocess (dataset : DataFrame) (return_X_y dropna : Bool) :
    Except PyError FetchRes :=
  let dataset := if dropna then dataset.dropna else dataset
  if return_X_y then
    match dataset.dropColumn "target" with
    | .error e => .error e
    | .ok X =>
      match dataset.column "target" with
      | .error e => .error e
      | .ok y => .ok (.X_y X.rows y)
  else .ok (.df dataset)

/-- `fetch_data(dataset_name, return_X_y, local_cache_dir, dropna)`. -/
def fetch_data (env : Env) (fs : FS) (dataset_name : String)
    (return_X_y : Bool) (local_cache_dir : Option String) (dropna : Bool) :
    FetchOut :=
  match local_cache_dir with
  | none =>
    if dataset_name ∈ dataset_names env then
      match get_dataset_url env GITHUB_URL dataset_name suffix with
      | (.error e, net) => ⟨.error e, fs, net⟩
      | (.ok url, net) =>
        let dataset := env.remote url
        ⟨postprocess dataset return_X_y dropna, fs, net ++ [.read url]⟩
    else ⟨.error unknownDataset, fs, []⟩
  | some root =>
    let dataset_path := cache_path root dataset_name
    match fs.files.lookup dataset_path with
    | some dataset =>
      ⟨postprocess dataset return_X_y dropna, fs, []⟩
    | none =>
      if dataset_name ∈ dataset_names env then
        match get_dataset_url env GITHUB_URL dataset_name suffix with
        | (.error e, net) => ⟨.error e, fs, net⟩
        | (.ok url, net) =>
          let dataset := env.remote url
          let dataset_dir := cache_dir root dataset_name
          let fs₁ : FS :=
            if dataset_dir ∈ fs.dirs then fs
            else { fs with dirs := dataset_dir :: fs.dirs }
          let fs₂ : FS := { fs₁ with files := (dataset_path, dataset) :: fs₁.files }
          ⟨postprocess dataset return_X_y dropna, fs₂, net ++ [.read url]⟩
      else ⟨.error unknownDataset, fs, []⟩

/-- The table `fetch_data` parses its result from (the cache file on a
hit, the remote table otherwise), when the call gets that far. -/
def fetched_source (env : Env) (fs : FS) (nm : String) (root : Option String) :
    Option DataFrame :=
  let remoteSrc :=
    if nm ∈ dataset_names env then
      let u := dataset_url_of GITHUB_URL nm suffix
      if env.status u = 200 then some (env.remote u) else none
    else none
  match root with
  | none => remoteSrc
  | some r =>
    match fs.files.lookup (cache_path r nm) with
    | some d => some d
    | none => remoteSrc

/-- One row of the remote summary-statistics CSV
(`all_summary_stats.csv`). -/
structure SummaryRow where
  dataset : String
  instances : Int
  features : Int
  classes : Int
  imbalance : Rat
  endpoint_type : String
  problem_type : String
deriving DecidableEq, Repr

/-- The guard of the third filter step reads the name `feat_Min`
(capital M), but the function's parameter is `feat_min`: no binding named
`feat_Min` exists anywhere in the module, so evaluating the guard raises
`NameError`. -/
def feat_Min : Except PyError (Option Int) := .error (.nameError "feat_Min")

/-- Likewise the fourth filter step reads the unbound name `feat_Max`. -/
def feat_Max : Except PyError (Option Int) := .error (.nameError "feat_Max")

/-- `filter_datasets(...)`, applied to the summary table it downloaded:
each given constraint filters the rows in sequence, then the `dataset`
column is projected.  The source's `feat_Min`/`feat_Max` guards are
modelled by the unbound-name lookups above (their bodies, had they run,
filter by the `feat_min`/`feat_max` parameters). -/
def filter_datasets (table : List SummaryRow)
    (obs_min obs_max feat_min feat_max class_min class_max : Option Int)
    (endpt : Option String) (max_imbalance : Option Rat) (task : Option String) :
    Except PyError (List String) := do
  let tempdf := table
  let tempdf := match obs_min with
    | some v => tempdf.filter (fun (r : SummaryRow) => decide <| v ≤ r.instances)
    | none => tempdf
  let tempdf := match obs_max with
    | some v => tempdf.filter (fun (r : SummaryRow) => decide <| r.instances ≤ v)
    | none => tempdf
  let fMin ← feat_Min
  let tempdf := match fMin with
    | some _ => tempdf.filter (fun (r : SummaryRow) => decide <| feat_min.getD 0 ≤ r.features)
    | none => tempdf
  let fMax ← feat_Max
  let tempdf := match fMax with
    | some _ => tempdf.filter (fun (r : SummaryRow) => decide <| r.features ≤ feat_max.getD 0)
    | none => tempdf
  let tempdf := match class_min with
    | some v => tempdf.filter (fun (r : SummaryRow) => decide <| v ≤ r.classes)
    | none => tempdf
  let tempdf := match class_max with
    | some v => tempdf.filter (fun (r : SummaryRow) => decide <| r.classes ≤ v)
    | none => tempdf
  let tempdf := match max_imbalance with
    | some v => tempdf.filter (fun (r : SummaryRow) => decide <| r.imbalance < v)
    | none => tempdf
  let tempdf := match endpt with
    | some v => tempdf.filter (fun (r : SummaryRow) => decide <| r.endpoint_type = v)
    | none => tempdf
  let tempdf := match task with
    | some v => tempdf.filter (fun (r : SummaryRow) => decide <| r.problem_type = v)
    | none => tempdf
  return tempdf.map (fun r => r.dataset)

/-- What the docstring of `filter_datasets` promises (and what the code
would compute were the guards spelled `feat_min`/`feat_max`): every
given constraint ANDed, then the `dataset` column. -/
def filter_datasets_intended (table : List SummaryRow)
    (obs_min obs_max feat_min feat_max class_min class_max : Option Int)
    (endpt : Option String) (max_imbalance : Option Rat) (task : Option String) :
    List String :=
  let keep := fun (r : SummaryRow) =>
    (match obs_min with | some v => decide (v ≤ r.instances) | none => true) &&
    (match obs_max with | some v => decide (r.instances ≤ v) | none => true) &&
    (match feat_min with | some v => decide (v ≤ r.features) | none => true) &&
    (match feat_max with | some v => decide (r.features ≤ v) | none => true) &&
    (match class_min with | some v => decide (v ≤ r.classes) | none => true) &&
    (match class_max with | some v => decide (r.classes ≤ v) | none => true) &&
    (match max_imbalance with | some v => decide (r.imbalance < v) | none => true) &&
    (match endpt with | some v => decide (r.endpoint_type = v) | none => true) &&
    (match task with | some v => decide (r.problem_type = v) | none => true)
  (table.filter keep).map (fun r => r.dataset)

/-- Insertion into a Python `set`, represented as a duplicate-free list. -/
def setAdd (x : String) (s : List String) : List String :=
  if x ∈ s then s else x :: s

/-- The body of the `for path in res.splitlines()` loop of
`get_updated_datasets`, acting on the pair of accumulated sets.  A path
is its `pathlib.Path(...).parts` list. -/
def updatedStep (acc : List String × List String) (path : List String) :
    List String × List String :=
  if path.headD "" = "datasets" then
    let nm := path.getLastD ""
    let acc :=
      if nm.endsWith ".tsv.gz" then (setAdd (path.getD (path.length - 2) "") acc.1, acc.2)
      else acc
    if nm = "metadata.yaml" then (acc.1, setAdd (path.getD (path.length - 2) "") acc.2)
    else acc
  else acc

/-- `get_updated_datasets()`, applied to the `git diff --name-only` output
(one `parts` list per changed path): collect the parent-directory names of
changed `.tsv.gz` files and of changed `metadata.yaml` files under
`datasets/`, each as a set, then return both sorted. -/
def get_updated_datasets (diff_paths : List (List String)) :
    List String × List String :=
  let acc := diff_paths.foldl updatedStep ([], [])
  (acc.1.insertionSort (· ≤ ·), acc.2.insertionSort (· ≤ ·))

/-! Helper lemmas about the embedding. -/

theorem dropColumn_error {d : DataFrame} {c : String} {e : PyError}
    (h : d.dropColumn c = .error e) : e = .keyError c := by
  unfold DataFrame.dropColumn at h
  split at h <;> simp_all

theorem column_error {d : DataFrame} {c : String} {e : PyError}
    (h : d.column c = .error e) : e = .keyError c := by
  unfold DataFrame.column at h
  split at h <;> simp_all

/-- `postprocess` can only fail with the `KeyError` of a missing `target`
column, never with the unknown-dataset `ValueError`. -/
theorem postprocess_error {d : DataFrame} {rxy dn : Bool} {e : PyError}
    (h : postprocess d rxy dn = .error e) : e = .keyError "target" := by
  unfold postprocess at h
  cases rxy
  · simp at h
  · simp only [if_true] at h
    split at h
    · injection h with h
      exact h.symm.trans (dropColumn_error (by assumption))
    · split at h
      · injection h with h
        exact h.symm.trans (column_error (by assumption))
      · simp_all

theorem postprocess_no_valueError (d : DataFrame) (rxy dn : Bool) (msg : String) :
    postprocess d rxy dn ≠ .error (.valueError msg) := by
  intro h
  cases postprocess_error h

theorem postprocess_false (d : DataFrame) (dn : Bool) :
    postprocess d false dn = .ok (.df (if dn then d.dropna else d)) := rfl

/-! Branch characterizations of `fetch_data`. -/

theorem fetch_nocache_not_mem (env : Env) (fs : FS) (nm : String) (rxy dn : Bool)
    (h : nm ∉ dataset_names env) :
    fetch_data env fs nm rxy none dn = ⟨.error unknownDataset, fs, []⟩ := by
  simp [fetch_data, h]

theorem fetch_nocache_not200 (env : Env) (fs : FS) (nm : String) (rxy dn : Bool)
    (h1 : nm ∈ dataset_names env)
    (h2 : env.status (dataset_url_of GITHUB_URL nm suffix) ≠ 200) :
    fetch_data env fs nm rxy none dn =
      ⟨.error unknownDataset, fs, [.get (dataset_url_of GITHUB_URL nm suffix)]⟩ := by
  simp [fetch_data, get_dataset_url, h1, h2]

theorem fetch_nocache_200 (env : Env) (fs : FS) (nm : String) (rxy dn : Bool)
    (h1 : nm ∈ dataset_names env)
    (h2 : env.status (dataset_url_of GITHUB_URL nm suffix) = 200) :
    fetch_data env fs nm rxy none dn =
      ⟨postprocess (env.remote (dataset_url_of GITHUB_URL nm suffix)) rxy dn, fs,
        [.get (dataset_url_of GITHUB_URL nm suffix),
         .read (dataset_url_of GITHUB_URL nm suffix)]⟩ := by
  simp [fetch_data, get_dataset_url, h1, h2]

theorem fetch_cache_hit (env : Env) (fs : FS) (nm root : String) (rxy dn : Bool)
    (d : DataFrame) (h : fs.files.lookup (cache_path root nm) = some d) :
    fetch_data env fs nm rxy (some root) dn = ⟨postprocess d rxy dn, fs, []⟩ := by
  simp [fetch_data, h]

theorem fetch_cache_miss_not_mem (env : Env) (fs : FS) (nm root : String) (rxy dn : Bool)
    (h0 : fs.files.lookup (cache_path root nm) = none)
    (h : nm ∉ dataset_names env) :
    fetch_data env fs nm rxy (some root) dn = ⟨.error unknownDataset, fs, []⟩ := by
  simp [fetch_data, h0, h]

theorem fetch_cache_miss_not200 (env : Env) (fs : FS) (nm root : String) (rxy dn : Bool)
    (h0 : fs.files.lookup (cache_path root nm) = none)
    (h1 : nm ∈ dataset_names env)
    (h2 : env.status (dataset_url_of GITHUB_URL nm suffix) ≠ 200) :
    fetch_data env fs nm rxy (some root) dn =
      ⟨.error unknownDataset, fs, [.get (dataset_url_of GITHUB_URL nm suffix)]⟩ := by
  simp [fetch_data, get_dataset_url, h0, h1, h2]

/-- The filesystem after the cache-miss write: `os.makedirs` when the
directory is new, then the `to_csv` of the freshly parsed table. -/
def cache_store (fs : FS) (root nm : String) (d : DataFrame) : FS :=
  let dataset_dir := cache_dir root nm
  let fs₁ := if dataset_dir ∈ fs.dirs then fs else { fs with dirs := dataset_dir :: fs.dirs }
  { fs₁ with files := (cache_path root nm, d) :: fs₁.files }

theorem fetch_cache_miss_200 (env : Env) (fs : FS) (nm root : String) (rxy dn : Bool)
    (h0 : fs.files.lookup (cache_path root nm) = none)
    (h1 : nm ∈ dataset_names env)
    (h2 : env.status (dataset_url_of GITHUB_URL nm suffix) = 200) :
    fetch_data env fs nm rxy (some root) dn =
      ⟨postprocess (env.remote (dataset_url_of GITHUB_URL nm suffix)) rxy dn,
        cache_store fs root nm (env.remote (dataset_url_of GITHUB_URL nm suffix)),
        [.get (dataset_url_of GITHUB_URL nm suffix),
         .read (dataset_url_of GITHUB_URL nm suffix)]⟩ := by
  simp [fetch_data, get_dataset_url, cache_store, h0, h1, h2]

theorem cache_store_lookup (fs : FS) (root nm : String) (d : DataFrame) :
    (cache_store fs root nm d).files.lookup (cache_path root nm) = some d := by
  simp [cache_store, List.lookup]

/-! Concrete data used to instantiate the theorems. -/

def demoRow : SummaryRow :=
  ⟨"adult", 100, 5, 2, (1 : Rat) / 2, "binary", "classification"⟩

def demoDF : DataFrame :=
  ⟨["a", "target"], [[some 1, some 0], [none, some 1], [some 2, some 1]]⟩

def demoEnv : Env := ⟨["adult"], ["housing"], fun _ => 200, fun _ => demoDF⟩

/-- An environment whose remote answers 404 for every URL. -/
def demo404 : Env := ⟨["adult"], ["housing"], fun _ => 404, fun _ => demoDF⟩

def emptyFS : FS := ⟨[], []⟩

/-- A filesystem pre-populated at the cache path of `mystery`, a name not
in the demo catalog. -/
def demoCacheFS : FS := ⟨[(cache_path "cache" "mystery", demoDF)], ["cache/mystery"]⟩

/-! The claims. -/

/-- C1: the claim says `filter_datasets` returns a list of names (possibly
empty) and never raises once the summary table is retrieved.  In fact
every call raises `NameError`, because the feature-count guards read the
unbound names `feat_Min`/`feat_Max` where the parameters are spelled
`feat_min`/`feat_max`. -/
theorem C1_filter_datasets_always_raises
    (table : List SummaryRow)
    (obs_min obs_max feat_min feat_max class_min class_max : Option Int)
    (endpt : Option String) (max_imbalance : Option Rat) (task : Option String) :
    filter_datasets table obs_min obs_max feat_min feat_max class_min class_max
      endpt max_imbalance task = .error (.nameError "feat_Min") := rfl

/-- C2: the claim says an all-`None` call returns the `dataset` column and
an impossible `obs_min` returns `[]`.  The code instead raises `NameError`
in both cases; the docstring's intended semantics
(`filter_datasets_intended`) does satisfy the claim on the demo table. -/
theorem C2_filter_datasets_diverges_from_claim :
    filter_datasets [demoRow] none none none none none none none none none
        = .error (.nameError "feat_Min") ∧
    filter_datasets [demoRow] (some 1000000) none none none none none none none none
        = .error (.nameError "feat_Min") ∧
    filter_datasets_intended [demoRow] none none none none none none none none none
        = ["adult"] ∧
    filter_datasets_intended [demoRow] (some 1000000) none none none none none none none none
        = [] :=
  ⟨rfl, rfl, rfl, rfl⟩

/-- C3: without a cache root, `fetch_data` raises the unknown-dataset
`ValueError` exactly when the name is off-catalog or the remote existence
check is non-200; on-catalog with a 200 remote, the unified call succeeds
with the parsed (and, if `dropna`, NaN-row-dropped) remote table. -/
theorem C3_fetch_no_cache_unknown_iff (env : Env) (fs : FS) (nm : String) (rxy dn : Bool) :
    ((fetch_data env fs nm rxy none dn).result = .error unknownDataset ↔
      (nm ∉ dataset_names env ∨
        env.status (dataset_url_of GITHUB_URL nm suffix) ≠ 200)) ∧
    (nm ∈ dataset_names env →
      env.status (dataset_url_of GITHUB_URL nm suffix) = 200 →
      (fetch_data env fs nm false none dn).result =
        .ok (.df (if dn then (env.remote (dataset_url_of GITHUB_URL nm suffix)).dropna
                  else env.remote (dataset_url_of GITHUB_URL nm suffix)))) := by
  constructor
  · by_cases h1 : nm ∈ dataset_names env
    · by_cases h2 : env.status (dataset_url_of GITHUB_URL nm suffix) = 200
      · rw [fetch_nocache_200 env fs nm rxy dn h1 h2]
        simp only [h1, h2, not_true_eq_false, false_or, ne_eq, not_false_eq_true,
          iff_false]
        exact fun h => postprocess_no_valueError _ _ _ _ h
      · rw [fetch_nocache_not200 env fs nm rxy dn h1 h2]
        simp [h1, h2]
    · rw [fetch_nocache_not_mem env fs nm rxy dn h1]
      simp [h1]
  · intro h1 h2
    rw [fetch_nocache_200 env fs nm false dn h1 h2, postprocess_false]

/-- C3 at a concrete environment: the success half applied to the demo
catalog and a 200 remote. -/
theorem C3_fetch_no_cache_unknown_iff_witness :
    ("adult" ∈ dataset_names demoEnv) ∧
    demoEnv.status (dataset_url_of GITHUB_URL "adult" suffix) = 200 ∧
    (fetch_data demoEnv emptyFS "adult" false none true).result =
      .ok (.df (if true then (demoEnv.remote (dataset_url_of GITHUB_URL "adult" suffix)).dropna
                else demoEnv.remote (dataset_url_of GITHUB_URL "adult" suffix))) :=
  ⟨by decide, rfl,
    (C3_fetch_no_cache_unknown_iff demoEnv emptyFS "adult" false true).2 (by decide) rfl⟩

/-- C4: with a file already at the deterministic cache path, `fetch_data`
parses and returns that file's contents with no filesystem change and no
network access, and the outcome is independent of the environment — so no
Catalog or remote consultation happens, even for off-catalog names. -/
theorem C4_cache_hit_bypasses_validation (env : Env) (fs : FS) (nm root : String)
    (rxy dn : Bool) (d : DataFrame)
    (h : fs.files.lookup (cache_path root nm) = some d) :
    fetch_data env fs nm rxy (some root) dn = ⟨postprocess d rxy dn, fs, []⟩ ∧
    (∀ env₂ : Env, fetch_data env₂ fs nm rxy (some root) dn =
      fetch_data env fs nm rxy (some root) dn) :=
  ⟨fetch_cache_hit env fs nm root rxy dn d h,
    fun env₂ => (fetch_cache_hit env₂ fs nm root rxy dn d h).trans
      (fetch_cache_hit env fs nm root rxy dn d h).symm⟩

/-- C4 at a concrete input: `mystery` is not in the demo catalog, yet its
pre-populated cache file is returned. -/
theorem C4_cache_hit_bypasses_validation_witness :
    demoCacheFS.files.lookup (cache_path "cache" "mystery") = some demoDF ∧
    ("mystery" ∉ dataset_names demoEnv) ∧
    fetch_data demoEnv demoCacheFS "mystery" false (some "cache") true =
      ⟨postprocess demoDF false true, demoCacheFS, []⟩ :=
  ⟨rfl, by decide,
    (C4_cache_hit_bypasses_validation demoEnv demoCacheFS "mystery" "cache"
      false true demoDF rfl).1⟩

/-- C7: whenever `fetch_data` fails with the unknown-dataset error, the
filesystem is unchanged: no cache file and no cache directory was
created. -/
theorem C7_unknown_failure_leaves_fs (env : Env) (fs : FS) (nm : String)
    (rxy : Bool) (root : Option String) (dn : Bool)
    (h : (fetch_data env fs nm rxy root dn).result = .error unknownDataset) :
    (fetch_data env fs nm rxy root dn).fs = fs := by
  cases root with
  | none =>
    by_cases h1 : nm ∈ dataset_names env
    · by_cases h2 : env.status (dataset_url_of GITHUB_URL nm suffix) = 200
      · rw [fetch_nocache_200 env fs nm rxy dn h1 h2] at h
        exact absurd h (postprocess_no_valueError _ _ _ _)
      · rw [fetch_nocache_not200 env fs nm rxy dn h1 h2]
    · rw [fetch_nocache_not_mem env fs nm rxy dn h1]
  | some root =>
    rcases h0 : fs.files.lookup (cache_path root nm) with _ | d
    · by_cases h1 : nm ∈ dataset_names env
      · by_cases h2 : env.status (dataset_url_of GITHUB_URL nm suffix) = 200
        · rw [fetch_cache_miss_200 env fs nm root rxy dn h0 h1 h2] at h
          exact absurd h (postprocess_no_valueError _ _ _ _)
        · rw [fetch_cache_miss_not200 env fs nm root rxy dn h0 h1 h2]
      · rw [fetch_cache_miss_not_mem env fs nm root rxy dn h0 h1]
    · rw [fetch_cache_hit env fs nm root rxy dn d h0]

/-- C7 at a concrete input: fetching the off-catalog name `nope` into an
empty cache fails and leaves the filesystem empty. -/
theorem C7_unknown_failure_leaves_fs_witness :
    (fetch_data demoEnv emptyFS "nope" false (some "cache") true).result =
      .error unknownDataset ∧
    (fetch_data demoEnv emptyFS "nope" false (some "cache") true).fs = emptyFS :=
  ⟨rfl, C7_unknown_failure_leaves_fs demoEnv emptyFS "nope" false (some "cache") true rfl⟩

/-- C10: on a cache miss that reaches the download, the file written at
the cache path is the full parsed remote table (missing-value rows
included), and the resulting filesystem does not depend on the `dropna`
flag — the write happens before rows are dropped. -/
theorem C10_cache_write_precedes_dropna (env : Env) (fs : FS) (nm root : String)
    (rxy : Bool) (dn dn' : Bool)
    (hmiss : fs.files.lookup (cache_path root nm) = none)
    (hmem : nm ∈ dataset_names env)
    (hst : env.status (dataset_url_of GITHUB_URL nm suffix) = 200) :
    (fetch_data env fs nm rxy (some root) dn).fs.files.lookup (cache_path root nm) =
      some (env.remote (dataset_url_of GITHUB_URL nm suffix)) ∧
    (fetch_data env fs nm rxy (some root) dn).fs =
      (fetch_data env fs nm rxy (some root) dn').fs := by
  rw [fetch_cache_miss_200 env fs nm root rxy dn hmiss hmem hst,
      fetch_cache_miss_200 env fs nm root rxy dn' hmiss hmem hst]
  exact ⟨cache_store_lookup fs root nm _, rfl⟩

/-- C10 at a concrete input: the demo remote table has a NaN row, and that
row is present in the cached file whichever way `dropna` is set. -/
theorem C10_cache_write_precedes_dropna_witness :
    emptyFS.files.lookup (cache_path "cache" "adult") = none ∧
    ("adult" ∈ dataset_names demoEnv) ∧
    demoEnv.status (dataset_url_of GITHUB_URL "adult" suffix) = 200 ∧
    ((fetch_data demoEnv emptyFS "adult" false (some "cache") true).fs.files.lookup
        (cache_path "cache" "adult") =
      some (demoEnv.remote (dataset_url_of GITHUB_URL "adult" suffix)) ∧
    (fetch_data demoEnv emptyFS "adult" false (some "cache") true).fs =
      (fetch_data demoEnv emptyFS "adult" false (some "cache") false).fs) :=
  ⟨rfl, by decide, rfl,
    C10_cache_write_precedes_dropna demoEnv emptyFS "adult" "cache" false true false
      rfl (by decide) rfl⟩

theorem dropna_no_missing (d : DataFrame) :
    ∀ r ∈ d.dropna.rows, ∀ c ∈ r, c.isSome = true := by
  intro r hr c hc
  unfold DataFrame.dropna at hr
  simp only [List.mem_filter] at hr
  exact List.all_eq_true.mp hr.2 c hc

theorem postprocess_df_inj {s d : DataFrame} {dn : Bool}
    (h : postprocess s false dn = .ok (.df d)) : d = if dn then s.dropna else s := by
  rw [postprocess_false] at h
  simp only [Except.ok.injEq, FetchRes.df.injEq] at h
  exact h.symm

/-- A successful unified `fetch_data` result is the source table with,
when `dropna` is set, its missing-value rows removed. -/
theorem fetch_df_result (env : Env) (fs : FS) (nm : String) (root : Option String)
    (dn : Bool) (d : DataFrame)
    (h : (fetch_data env fs nm false root dn).result = .ok (.df d)) :
    ∃ s, fetched_source env fs nm root = some s ∧ d = if dn then s.dropna else s := by
  cases root with
  | none =>
    by_cases h1 : nm ∈ dataset_names env
    · by_cases h2 : env.status (dataset_url_of GITHUB_URL nm suffix) = 200
      · rw [fetch_nocache_200 env fs nm false dn h1 h2] at h
        exact ⟨_, by simp [fetched_source, h1, h2], postprocess_df_inj h⟩
      · rw [fetch_nocache_not200 env fs nm false dn h1 h2] at h
        exact absurd h (by simp)
    · rw [fetch_nocache_not_mem env fs nm false dn h1] at h
      exact absurd h (by simp)
  | some root =>
    rcases h0 : fs.files.lookup (cache_path root nm) with _ | c
    · by_cases h1 : nm ∈ dataset_names env
      · by_cases h2 : env.status (dataset_url_of GITHUB_URL nm suffix) = 200
        · rw [fetch_cache_miss_200 env fs nm root false dn h0 h1 h2] at h
          exact ⟨_, by simp [fetched_source, h0, h1, h2], postprocess_df_inj h⟩
        · rw [fetch_cache_miss_not200 env fs nm root false dn h0 h1 h2] at h
          exact absurd h (by simp)
      · rw [fetch_cache_miss_not_mem env fs nm root false dn h0 h1] at h
        exact absurd h (by simp)
    · rw [fetch_cache_hit env fs nm root false dn c h0] at h
      exact ⟨c, by simp [fetched_source, h0], postprocess_df_inj h⟩

/-- C5: on success with `dropna` set, no returned row has a missing cell;
with `dropna` unset, the returned table has exactly as many rows as the
parsed source (cache file or downloaded table). -/
theorem C5_dropna_semantics (env : Env) (fs : FS) (nm : String) (root : Option String) :
    (∀ d, (fetch_data env fs nm false root true).result = .ok (.df d) →
      ∀ r ∈ d.rows, ∀ c ∈ r, c.isSome = true) ∧
    (∀ d, (fetch_data env fs nm false root false).result = .ok (.df d) →
      ∃ s, fetched_source env fs nm root = some s ∧ d.rows.length = s.rows.length) := by
  constructor
  · intro d h
    obtain ⟨s, _, hd⟩ := fetch_df_result env fs nm root true d h
    rw [hd, if_pos rfl]
    exact dropna_no_missing s
  · intro d h
    obtain ⟨s, hs, hd⟩ := fetch_df_result env fs nm root false d h
    rw [hd]
    exact ⟨s, hs, rfl⟩

/-- C5 at a concrete input: the demo remote table has one NaN row; with
`dropna` every returned row is complete, and without it the three source
rows survive. -/
theorem C5_dropna_semantics_witness :
    ((fetch_data demoEnv emptyFS "adult" false none true).result =
      .ok (.df demoDF.dropna)) ∧
    (∀ r ∈ demoDF.dropna.rows, ∀ c ∈ r, c.isSome = true) ∧
    ((fetch_data demoEnv emptyFS "adult" false none false).result =
      .ok (.df demoDF)) ∧
    (∃ s, fetched_source demoEnv emptyFS "adult" none = some s ∧
      demoDF.rows.length = s.rows.length) :=
  ⟨rfl, (C5_dropna_semantics demoEnv emptyFS "adult" none).1 demoDF.dropna rfl,
    rfl, (C5_dropna_semantics demoEnv emptyFS "adult" none).2 demoDF rfl⟩

/-- C6: once a cached call has succeeded, repeating it with the same
arguments on the resulting filesystem returns the same data, changes
nothing, and touches the network not at all. -/
theorem C6_cached_fetch_idempotent (env : Env) (fs : FS) (nm root : String)
    (rxy dn : Bool) (r₁ : FetchRes) (fs₁ : FS) (n₁ : List NetEvent)
    (h : fetch_data env fs nm rxy (some root) dn = ⟨.ok r₁, fs₁, n₁⟩) :
    fetch_data env fs₁ nm rxy (some root) dn = ⟨.ok r₁, fs₁, []⟩ := by
  rcases h0 : fs.files.lookup (cache_path root nm) with _ | d
  · by_cases h1 : nm ∈ dataset_names env
    · by_cases h2 : env.status (dataset_url_of GITHUB_URL nm suffix) = 200
      · rw [fetch_cache_miss_200 env fs nm root rxy dn h0 h1 h2] at h
        injection h with hres hfs _
        rw [fetch_cache_hit env fs₁ nm root rxy dn
          (env.remote (dataset_url_of GITHUB_URL nm suffix))
          (by rw [← hfs]; exact cache_store_lookup fs root nm _), hres]
      · rw [fetch_cache_miss_not200 env fs nm root rxy dn h0 h1 h2] at h
        injection h with hres _ _
        exact absurd hres (by simp [unknownDataset])
    · rw [fetch_cache_miss_not_mem env fs nm root rxy dn h0 h1] at h
      injection h with hres _ _
      exact absurd hres (by simp [unknownDataset])
  · rw [fetch_cache_hit env fs nm root rxy dn d h0] at h
    injection h with hres hfs _
    rw [fetch_cache_hit env fs₁ nm root rxy dn d (hfs ▸ h0), hres]

/-- C6 at a concrete input: the first call downloads and caches the demo
table; the second returns the identical result with an empty network
trace. -/
theorem C6_cached_fetch_idempotent_witness :
    fetch_data demoEnv emptyFS "adult" false (some "cache") true =
      ⟨.ok (.df demoDF.dropna),
        ⟨[(cache_path "cache" "adult", demoDF)], [cache_dir "cache" "adult"]⟩,
        [.get (dataset_url_of GITHUB_URL "adult" suffix),
         .read (dataset_url_of GITHUB_URL "adult" suffix)]⟩ ∧
    fetch_data demoEnv
        ⟨[(cache_path "cache" "adult", demoDF)], [cache_dir "cache" "adult"]⟩
        "adult" false (some "cache") true =
      ⟨.ok (.df demoDF.dropna),
        ⟨[(cache_path "cache" "adult", demoDF)], [cache_dir "cache" "adult"]⟩, []⟩ :=
  ⟨rfl, C6_cached_fetch_idempotent demoEnv emptyFS "adult" "cache" false true
    (.df demoDF.dropna)
    ⟨[(cache_path "cache" "adult", demoDF)], [cache_dir "cache" "adult"]⟩
    [.get (dataset_url_of GITHUB_URL "adult" suffix),
     .read (dataset_url_of GITHUB_URL "adult" suffix)] rfl⟩

theorem postprocess_X_y_inj {s : DataFrame} {dn : Bool}
    {X : List (List (Option Int))} {y : List (Option Int)}
    (h : postprocess s true dn = .ok (.X_y X y)) :
    ∃ dX, (if dn then s.dropna else s).dropColumn "target" = .ok dX ∧
      X = dX.rows ∧ (if dn then s.dropna else s).column "target" = .ok y := by
  unfold postprocess at h
  simp only [if_true] at h
  split at h
  · exact absurd h (by simp)
  · split at h
    · exact absurd h (by simp)
    · simp only [Except.ok.injEq, FetchRes.X_y.injEq] at h
      exact ⟨_, by assumption, h.1.symm, by rw [← h.2]; assumption⟩

/-- When the `(X, y)` split succeeds, the unified call succeeds on the
same table, `X` is that table minus its `target` column, and `y` is its
`target` column. -/
theorem postprocess_split (s : DataFrame) (dn : Bool)
    {X : List (List (Option Int))} {y : List (Option Int)}
    (h : postprocess s true dn = .ok (.X_y X y)) :
    ∃ d dX, postprocess s false dn = .ok (.df d) ∧
      d.dropColumn "target" = .ok dX ∧ X = dX.rows ∧ d.column "target" = .ok y := by
  obtain ⟨dX, h1, h2, h3⟩ := postprocess_X_y_inj h
  exact ⟨if dn then s.dropna else s, dX, postprocess_false s dn, h1, h2, h3⟩

/-- C8: a successful `return_X_y` call yields exactly the split of the
unified dataset the same call without the flag would return: `X` is every
column except `target`, `y` is the `target` column, and filesystem and
network trace match. -/
theorem C8_return_X_y_split (env : Env) (fs : FS) (nm : String) (root : Option String)
    (dn : Bool) (X : List (List (Option Int))) (y : List (Option Int)) (fs' : FS)
    (n : List NetEvent)
    (h : fetch_data env fs nm true root dn = ⟨.ok (.X_y X y), fs', n⟩) :
    ∃ d dX, fetch_data env fs nm false root dn = ⟨.ok (.df d), fs', n⟩ ∧
      d.dropColumn "target" = .ok dX ∧ X = dX.rows ∧ d.column "target" = .ok y := by
  cases root with
  | none =>
    by_cases h1 : nm ∈ dataset_names env
    · by_cases h2 : env.status (dataset_url_of GITHUB_URL nm suffix) = 200
      · rw [fetch_nocache_200 env fs nm true dn h1 h2] at h
        injection h with hres hfs hnet
        obtain ⟨d, dX, hd, hdrop, hX, hy⟩ := postprocess_split _ dn hres
        refine ⟨d, dX, ?_, hdrop, hX, hy⟩
        rw [fetch_nocache_200 env fs nm false dn h1 h2, hd, hfs, hnet]
      · rw [fetch_nocache_not200 env fs nm true dn h1 h2] at h
        injection h with hres _ _
        exact absurd hres (by simp [unknownDataset])
    · rw [fetch_nocache_not_mem env fs nm true dn h1] at h
      injection h with hres _ _
      exact absurd hres (by simp [unknownDataset])
  | some root =>
    rcases h0 : fs.files.lookup (cache_path root nm) with _ | c
    · by_cases h1 : nm ∈ dataset_names env
      · by_cases h2 : env.status (dataset_url_of GITHUB_URL nm suffix) = 200
        · rw [fetch_cache_miss_200 env fs nm root true dn h0 h1 h2] at h
          injection h with hres hfs hnet
          obtain ⟨d, dX, hd, hdrop, hX, hy⟩ := postprocess_split _ dn hres
          refine ⟨d, dX, ?_, hdrop, hX, hy⟩
          rw [fetch_cache_miss_200 env fs nm root false dn h0 h1 h2, hd, hfs, hnet]
        · rw [fetch_cache_miss_not200 env fs nm root true dn h0 h1 h2] at h
          injection h with hres _ _
          exact absurd hres (by simp [unknownDataset])
      · rw [fetch_cache_miss_not_mem env fs nm root true dn h0 h1] at h
        injection h with hres _ _
        exact absurd hres (by simp [unknownDataset])
    · rw [fetch_cache_hit env fs nm root true dn c h0] at h
      injection h with hres hfs hnet
      obtain ⟨d, dX, hd, hdrop, hX, hy⟩ := postprocess_split _ dn hres
      refine ⟨d, dX, ?_, hdrop, hX, hy⟩
      rw [fetch_cache_hit env fs nm root false dn c h0, hd, hfs, hnet]

/-- C8 at a concrete input: the split of the demo table after NaN
dropping. -/
theorem C8_return_X_y_split_witness :
    fetch_data demoEnv emptyFS "adult" true none true =
      ⟨.ok (.X_y [[some 1], [some 2]] [some 0, some 1]), emptyFS,
        [.get (dataset_url_of GITHUB_URL "adult" suffix),
         .read (dataset_url_of GITHUB_URL "adult" suffix)]⟩ ∧
    (∃ d dX, fetch_data demoEnv emptyFS "adult" false none true =
        ⟨.ok (.df d), emptyFS,
          [.get (dataset_url_of GITHUB_URL "adult" suffix),
           .read (dataset_url_of GITHUB_URL "adult" suffix)]⟩ ∧
      d.dropColumn "target" = .ok dX ∧ ([[some 1], [some 2]] : List (List (Option Int))) = dX.rows ∧
      d.column "target" = .ok [some 0, some 1]) :=
  ⟨rfl, C8_return_X_y_split demoEnv emptyFS "adult" none true
    [[some 1], [some 2]] [some 0, some 1] emptyFS
    [.get (dataset_url_of GITHUB_URL "adult" suffix),
     .read (dataset_url_of GITHUB_URL "adult" suffix)] rfl⟩

theorem updatedStep_skip {acc : List String × List String} {p : List String}
    (h : p.headD "" ≠ "datasets") : updatedStep acc p = acc := by
  unfold updatedStep
  rw [if_neg h]

theorem foldl_updatedStep_filter (l : List (List String)) :
    ∀ acc, l.foldl updatedStep acc =
      (l.filter (fun p => p.headD "" == "datasets")).foldl updatedStep acc := by
  induction l with
  | nil => intro acc; rfl
  | cons p l ih =>
    intro acc
    by_cases hp : p.headD "" = "datasets"
    · simp only [List.foldl_cons, List.filter_cons]
      rw [if_pos (by rw [beq_iff_eq]; exact hp)]
      simp only [List.foldl_cons]
      exact ih _
    · simp only [List.foldl_cons, List.filter_cons]
      rw [if_neg (by rw [beq_iff_eq]; exact hp), updatedStep_skip hp]
      exact ih _

theorem setAdd_nodup {x : String} {s : List String} (h : s.Nodup) :
    (setAdd x s).Nodup := by
  unfold setAdd
  split
  · exact h
  · exact List.nodup_cons.mpr ⟨by assumption, h⟩

theorem updatedStep_nodup (acc : List String × List String) (p : List String)
    (h1 : acc.1.Nodup) (h2 : acc.2.Nodup) :
    (updatedStep acc p).1.Nodup ∧ (updatedStep acc p).2.Nodup := by
  unfold updatedStep
  split
  · dsimp only
    split
    · split
      · exact ⟨setAdd_nodup h1, setAdd_nodup h2⟩
      · exact ⟨h1, setAdd_nodup h2⟩
    · split
      · exact ⟨setAdd_nodup h1, h2⟩
      · exact ⟨h1, h2⟩
  · exact ⟨h1, h2⟩

theorem foldl_updatedStep_nodup (l : List (List String)) :
    ∀ acc : List String × List String, acc.1.Nodup → acc.2.Nodup →
      (l.foldl updatedStep acc).1.Nodup ∧ (l.foldl updatedStep acc).2.Nodup := by
  induction l with
  | nil => exact fun _ h1 h2 => ⟨h1, h2⟩
  | cons p l ih =>
    intro acc h1 h2
    obtain ⟨h1', h2'⟩ := updatedStep_nodup acc p h1 h2
    exact ih _ h1' h2'

/-- C9: `get_updated_datasets` is unchanged by discarding every path whose
first component is not `datasets`, and each returned list is duplicate-free
and sorted ascending.  (The hypothesis records that diff output lines are
never empty paths.) -/
theorem C9_get_updated_datasets_shape (paths : List (List String))
    (_h : ∀ p ∈ paths, p ≠ []) :
    get_updated_datasets paths =
      get_updated_datasets (paths.filter (fun p => p.headD "" == "datasets")) ∧
    (get_updated_datasets paths).1.Sorted (· ≤ ·) ∧
    (get_updated_datasets paths).1.Nodup ∧
    (get_updated_datasets paths).2.Sorted (· ≤ ·) ∧
    (get_updated_datasets paths).2.Nodup := by
  obtain ⟨hn1, hn2⟩ := foldl_updatedStep_nodup paths ([], []) List.nodup_nil List.nodup_nil
  refine ⟨?_, ?_, ?_, ?_, ?_⟩
  · unfold get_updated_datasets
    rw [foldl_updatedStep_filter]
  · exact List.sorted_insertionSort _ _
  · exact ((List.perm_insertionSort _ _).nodup_iff).mpr hn1
  · exact List.sorted_insertionSort _ _
  · exact ((List.perm_insertionSort _ _).nodup_iff).mpr hn2

def demoPaths : List (List String) :=
  [["datasets", "b", "b.tsv.gz"], ["foo", "x"], ["datasets", "a", "a.tsv.gz"],
   ["datasets", "a", "metadata.yaml"], ["datasets", "b", "b.tsv.gz"]]

/-- C9 at a concrete diff: a non-`datasets` path is ignored and both lists
come back sorted and duplicate-free. -/
theorem C9_get_updated_datasets_shape_witness :
    (∀ p ∈ demoPaths, p ≠ []) ∧
    (get_updated_datasets demoPaths =
      get_updated_datasets (demoPaths.filter (fun p => p.headD "" == "datasets")) ∧
    (get_updated_datasets demoPaths).1.Sorted (· ≤ ·) ∧
    (get_updated_datasets demoPaths).1.Nodup ∧
    (get_updated_datasets demoPaths).2.Sorted (· ≤ ·) ∧
    (get_updated_datasets demoPaths).2.Nodup) :=
  ⟨by decide, C9_get_updated_datasets_shape demoPaths (by decide)⟩

end Pmlb
